import Mathlib

/-!
Shallow embedding of `src/clients/python/cash_register.py` (the Cash Register
Python API client) and proofs of the specification claims about it.

The script is straight-line procedural code whose only interactions with the
world are: an existence test on the input file, a GET to the health endpoint,
a POST to the process endpoint, directory creation, one file write, and
console output.  We model an invocation as a pure function from the parsed
command-line arguments (`Args`) and an environment (`Env`, fixing the answers
the world gives to each interaction) to an ordered trace of effects
(`Effect`) plus the process exit code.
-/

namespace CashRegister

/-- The JSON object a well-formed 200 response to POST /process parses to:
fields `currency`, `divisor`, `hasRandomization`, `results`. -/
structure ServerResult where
  currency : String
  divisor : Int
  hasRandomization : Bool
  results : List String
deriving Repr, DecidableEq

/-- The body of a /process response as the client reads it: either a
well-formed result object, or an error object whose `error` field may be
absent.  (`response.json()` on a result object has no `error` key, so
`.get` falls back to its default there.) -/
inductive ProcBody where
  | resultObj (r : ServerResult)
  | errorObj (errorField : Option String)
deriving Repr, DecidableEq

/-- `response.json().get("error", d)` for `d` the fallback: the `error` field
of the body when present. -/
def jsonGetError : ProcBody → Option String
  | .resultObj _ => none
  | .errorObj e => e

/-- The HTTP response to the POST /process request. -/
structure ProcResponse where
  status : Nat
  body : ProcBody
deriving Repr, DecidableEq

/-- Parsed command-line arguments, after argparse (lines 74-95 of the
script).  `args.api` already carries the flag / environment-variable /
default resolution performed by argparse. -/
structure Args where
  input_file : String
  divisor : Option Int
  no_pennies : Bool
  half_dollars : Bool
  output : Option String
  api : String
deriving Repr, DecidableEq

/-- The environment of one invocation: the answers the outside world gives
to each of the script's interactions.  `health_status = none` models a
`requests.RequestException` (network failure) on the health GET. -/
structure Env where
  input_file_exists : Bool
  file_content : String
  health_status : Option Nat
  proc_response : ProcResponse
  script_dir : String
deriving Repr, DecidableEq

/-- One observable effect of the invocation, in program order. -/
inductive Effect where
  | getHealth (url : String)
  | postProcess (url : String) (params : List (String × String)) (body : String)
  | mkdirParents (path : String)
  | writeFile (path : String) (content : String)
  | printOut (line : String)
  | printErr (line : String)
deriving Repr, DecidableEq

/-- `check_api` (lines 23-29): the health GET succeeds iff the status code
is 200; any exception yields `false`. -/
def api_available (env : Env) : Bool :=
  match env.health_status with
  | some code => code == 200
  | none => false

/-- Effect of `check_api`: the GET to the health endpoint, and its boolean
result. -/
def check_api (env : Env) (api_url : String) : List Effect × Bool :=
  ([Effect.getHealth (api_url ++ ("/health"))], api_available env)

/-- Query-parameter construction of `process_file` (lines 38-44): `divisor`
iff an override was given, `noPennies` iff the flag is set, `halfDollars`
iff the flag is set.  `requests` serializes the integer as its decimal
string. -/
def build_params (divisor : Option Int) (no_pennies half_dollars : Bool) :
    List (String × String) :=
  (match divisor with
   | some d => [(("divisor"), toString d)]
   | none => []) ++
  (if no_pennies then [(("noPennies"), ("true"))] else []) ++
  (if half_dollars then [(("halfDollars"), ("true"))] else [])

/-- `process_file` (lines 32-58): read the input file, POST its raw text to
/process with the conditionally built query parameters, raise
`API error: ...` on a non-200 status (with `Unknown error` when the body has
no `error` field), and return the parsed JSON body otherwise. -/
def process_file (env : Env) (api_url : String) (options : Args) :
    List Effect × Except String ProcBody :=
  let params := build_params options.divisor options.no_pennies options.half_dollars
  ([Effect.postProcess (api_url ++ ("/process")) params env.file_content],
   if env.proc_response.status ≠ 200 then
     .error (("API error: ") ++ (jsonGetError env.proc_response.body).getD ("Unknown error"))
   else
     .ok env.proc_response.body)

/-- `"\n".join` of Python, on a list of lines. -/
def joinLines : List String → String
  | [] => ""
  | [a] => a
  | a :: b :: t => a ++ ("\n") ++ joinLines (b :: t)

/-- `Path.stem` needs the index of the last dot of a name. -/
def rfindDot : List Char → Option Nat
  | [] => none
  | c :: cs =>
    match rfindDot cs with
    | some i => some (i + 1)
    | none => if c = '.' then some 0 else none

/-- Path components (separator `/`). -/
def splitPath (p : String) : List String := p.splitOn ("/")

/-- `Path(p).name`: the last nonempty component of the path. -/
def pathName (p : String) : String :=
  match (splitPath p).reverse.find? (fun s => s ≠ ("")) with
  | some s => s
  | none => ("")

/-- `Path(p).stem`: the name with its last suffix removed; a dot at
position 0 or at the very end does not start a suffix. -/
def stem (p : String) : String :=
  let name := pathName p
  let cs := name.toList
  match rfindDot cs with
  | some i => if 0 < i ∧ i < cs.length - 1 then String.mk (cs.take i) else name
  | none => name

/-- `/`-join of path components (the `str` of a pathlib join). -/
def joinWithSlash : List String → String
  | [] => ""
  | [a] => a
  | a :: b :: t => a ++ ("/") ++ joinWithSlash (b :: t)

/-- `Path(p).parent` rendered as a string: all components but the last, or
`.` when there is only one. -/
def parentDir (p : String) : String :=
  match splitPath p with
  | [] => (".")
  | [_] => (".")
  | parts => joinWithSlash parts.dropLast

/-- `a / b` of pathlib for a relative second component, as a string. -/
def pathJoin (a b : String) : String := a ++ ("/") ++ b

/-- Line 130: `script_dir / ".." / ".." / "output" / "clients" / "python"`. -/
def defaultOutputDir (env : Env) : String :=
  pathJoin (pathJoin (pathJoin (pathJoin (pathJoin env.script_dir ("..")) ("..")) ("output")) ("clients")) ("python")

/-- Lines 133-134: default output path from the input file's stem. -/
def default_output_path (env : Env) (args : Args) : String :=
  pathJoin (defaultOutputDir env) (stem args.input_file ++ ("-output.txt"))

/-- Python truthiness of `args.output` at line 126: `None` and the empty
string are both falsy. -/
def outputTruthy : Option String → Bool
  | none => false
  | some p => p ≠ ("")

/-- The output path the run uses (lines 125-134). -/
def resolved_output_path (env : Env) (args : Args) : String :=
  match args.output with
  | some p => if p = ("") then default_output_path env args else p
  | none => default_output_path env args

/-- The summary line prepended to the output file (lines 137-141). -/
def summaryLineFile (result : ServerResult) : String :=
  if result.hasRandomization then
    ("* randomization used - divisible by ") ++ toString result.divisor
  else
    ("* no entries divisible by ") ++ toString result.divisor

/-- The summary line printed to stdout (lines 156-160), duplicated in the
source from the file-writing case split. -/
def summaryLineConsole (result : ServerResult) : String :=
  if result.hasRandomization then
    ("* randomization used - divisible by ") ++ toString result.divisor
  else
    ("* no entries divisible by ") ++ toString result.divisor

/-- The full text written to the output file (lines 137-148): the summary
line, the result lines, newline-joined, with one final newline appended. -/
def outputContent (result : ServerResult) : String :=
  joinLines (summaryLineFile result :: result.results) ++ ("\n")

/-- The effects performed for the output path and file write once the path
is resolved (lines 128-148): the default directory is created only when
`--output` is falsy, then the parent of the output path is created and the
file written. -/
def pathTrace (env : Env) (args : Args) : List Effect :=
  if outputTruthy args.output then []
  else [Effect.mkdirParents (defaultOutputDir env)]

/-- `main` (lines 61-163) as a trace-producing function: input-file check,
health check, submission, output-path resolution, file write, console
output; each failure prints to stderr and exits with code 1. -/
structure RunResult where
  trace : List Effect
  exitCode : Nat
deriving Repr, DecidableEq

def main (env : Env) (args : Args) : RunResult :=
  if env.input_file_exists = false then
    { trace := [Effect.printErr (("Error: Input file not found: ") ++ args.input_file)],
      exitCode := 1 }
  else
    let health := check_api env args.api
    if health.2 = false then
      { trace := health.1 ++
          [Effect.printErr (("Error: API server not available at ") ++ args.api ++
            (". Start it with: cd api && npm start"))],
        exitCode := 1 }
    else
      let proc := process_file env args.api args
      match proc.2 with
      | .error e =>
          { trace := health.1 ++ proc.1 ++ [Effect.printErr (("Error: ") ++ e)],
            exitCode := 1 }
      | .ok (.errorObj _) =>
          -- A 200 response whose body is not a result object:
          -- `result.get("hasRandomization")` is falsy, and the f-string at
          -- line 141 raises an uncaught KeyError after the output-path
          -- handling; the interpreter prints a traceback and exits with 1.
          { trace := health.1 ++ proc.1 ++ pathTrace env args ++
              [Effect.printErr ("Traceback: KeyError: divisor")],
            exitCode := 1 }
      | .ok (.resultObj result) =>
          let output_path := resolved_output_path env args
          { trace := health.1 ++ proc.1 ++ pathTrace env args ++
              [Effect.mkdirParents (parentDir output_path),
               Effect.writeFile output_path (outputContent result),
               Effect.printOut (("Processed ") ++ toString result.results.length ++
                 (" transactions (") ++ result.currency ++ (")")),
               Effect.printOut (("Output: ") ++ output_path),
               Effect.printOut (""),
               Effect.printOut ("--- Results ---"),
               Effect.printOut (summaryLineConsole result)] ++
              result.results.map Effect.printOut,
            exitCode := 0 }

/-- The file writes of a trace, in order: path and content pairs. -/
def writesOf : List Effect → List (String × String)
  | [] => []
  | Effect.writeFile p c :: t => (p, c) :: writesOf t
  | _ :: t => writesOf t

/-- The POST requests of a trace, in order: url, query parameters, body. -/
def postsOf : List Effect → List (String × List (String × String) × String)
  | [] => []
  | Effect.postProcess u ps b :: t => (u, ps, b) :: postsOf t
  | _ :: t => postsOf t

/-- The stdout lines of a trace, in order. -/
def printsOf : List Effect → List String
  | [] => []
  | Effect.printOut s :: t => s :: printsOf t
  | _ :: t => printsOf t

/-- The directory creations of a trace, in order. -/
def mkdirsOf : List Effect → List String
  | [] => []
  | Effect.mkdirParents p :: t => p :: mkdirsOf t
  | _ :: t => mkdirsOf t

/-- The stderr lines of a trace, in order. -/
def errsOf : List Effect → List String
  | [] => []
  | Effect.printErr s :: t => s :: errsOf t
  | _ :: t => errsOf t

/-- The health GET requests of a trace, in order: their urls. -/
def getsOf : List Effect → List String
  | [] => []
  | Effect.getHealth u :: t => u :: getsOf t
  | _ :: t => getsOf t

/-! Concrete fixtures used to instantiate the theorems. -/

def sampleResult : ServerResult :=
  { currency := "USD", divisor := 3, hasRandomization := false,
    results := ["$1.97,2,0,0,1,1,1", "$3.50,3,1,0,0,2,0"] }

def randResult : ServerResult :=
  { currency := "EUR", divisor := 5, hasRandomization := true,
    results := ["3.00,1,1,0,0,0,0"] }

def sampleArgs : Args :=
  { input_file := "data/sample-usd.txt", divisor := none, no_pennies := false,
    half_dollars := false, output := none, api := "http://localhost:3000" }

def sampleEnv : Env :=
  { input_file_exists := true, file_content := "2.13\n1.50\n",
    health_status := some 200,
    proc_response := { status := 200, body := .resultObj sampleResult },
    script_dir := "clients/python" }

def randEnv : Env :=
  { sampleEnv with proc_response := { status := 200, body := .resultObj randResult } }

def missingEnv : Env :=
  { sampleEnv with input_file_exists := false }

def downEnv : Env :=
  { sampleEnv with health_status := some 500 }

def apiErrEnv : Env :=
  { sampleEnv with proc_response := { status := 400, body := .errorObj (some ("Invalid amount")) } }

def overrideArgs : Args :=
  { sampleArgs with output := some ("custom/out.txt") }

def emptyOutputArgs : Args :=
  { sampleArgs with output := some ("") }

def flagArgs : Args :=
  { sampleArgs with divisor := some 5, no_pennies := true }

/-! Helper lemmas about the trace extractors and the run shapes. -/

theorem writesOf_append (a b : List Effect) :
    writesOf (a ++ b) = writesOf a ++ writesOf b := by
  induction a with
  | nil => rfl
  | cons e t ih => cases e <;> simp [writesOf, ih]

theorem postsOf_append (a b : List Effect) :
    postsOf (a ++ b) = postsOf a ++ postsOf b := by
  induction a with
  | nil => rfl
  | cons e t ih => cases e <;> simp [postsOf, ih]

theorem printsOf_append (a b : List Effect) :
    printsOf (a ++ b) = printsOf a ++ printsOf b := by
  induction a with
  | nil => rfl
  | cons e t ih => cases e <;> simp [printsOf, ih]

theorem mkdirsOf_append (a b : List Effect) :
    mkdirsOf (a ++ b) = mkdirsOf a ++ mkdirsOf b := by
  induction a with
  | nil => rfl
  | cons e t ih => cases e <;> simp [mkdirsOf, ih]

theorem errsOf_append (a b : List Effect) :
    errsOf (a ++ b) = errsOf a ++ errsOf b := by
  induction a with
  | nil => rfl
  | cons e t ih => cases e <;> simp [errsOf, ih]

theorem writesOf_map_printOut (l : List String) :
    writesOf (l.map Effect.printOut) = [] := by
  induction l with
  | nil => rfl
  | cons a t ih => simp [writesOf, ih]

theorem postsOf_map_printOut (l : List String) :
    postsOf (l.map Effect.printOut) = [] := by
  induction l with
  | nil => rfl
  | cons a t ih => simp [postsOf, ih]

theorem mkdirsOf_map_printOut (l : List String) :
    mkdirsOf (l.map Effect.printOut) = [] := by
  induction l with
  | nil => rfl
  | cons a t ih => simp [mkdirsOf, ih]

theorem printsOf_map_printOut (l : List String) :
    printsOf (l.map Effect.printOut) = l := by
  induction l with
  | nil => rfl
  | cons a t ih => simpa [printsOf] using ih

theorem errsOf_map_printOut (l : List String) :
    errsOf (l.map Effect.printOut) = [] := by
  induction l with
  | nil => rfl
  | cons a t ih => simp [errsOf, ih]

theorem writesOf_pathTrace (env : Env) (args : Args) :
    writesOf (pathTrace env args) = [] := by
  unfold pathTrace; split <;> rfl

theorem postsOf_pathTrace (env : Env) (args : Args) :
    postsOf (pathTrace env args) = [] := by
  unfold pathTrace; split <;> rfl

theorem printsOf_pathTrace (env : Env) (args : Args) :
    printsOf (pathTrace env args) = [] := by
  unfold pathTrace; split <;> rfl

theorem mkdirsOf_pathTrace (env : Env) (args : Args) :
    mkdirsOf (pathTrace env args) =
      if outputTruthy args.output then [] else [defaultOutputDir env] := by
  unfold pathTrace; split <;> rfl

/-- Shape of the trace of a successful, well-formed run. -/
theorem main_ok (env : Env) (args : Args) (r : ServerResult)
    (hfile : env.input_file_exists = true)
    (hhealth : env.health_status = some 200)
    (hresp : env.proc_response = { status := 200, body := .resultObj r }) :
    main env args =
      { trace :=
          Effect.getHealth (args.api ++ ("/health")) ::
          Effect.postProcess (args.api ++ ("/process"))
            (build_params args.divisor args.no_pennies args.half_dollars)
            env.file_content ::
          (pathTrace env args ++
            (Effect.mkdirParents (parentDir (resolved_output_path env args)) ::
             Effect.writeFile (resolved_output_path env args) (outputContent r) ::
             Effect.printOut (("Processed ") ++ toString r.results.length ++
               (" transactions (") ++ r.currency ++ (")")) ::
             Effect.printOut (("Output: ") ++ resolved_output_path env args) ::
             Effect.printOut ("") ::
             Effect.printOut ("--- Results ---") ::
             Effect.printOut (summaryLineConsole r) ::
             r.results.map Effect.printOut)),
        exitCode := 0 } := by
  simp [main, check_api, api_available, process_file, hfile, hhealth, hresp]

/-! The claims. -/

/-- C1: for every well-formed server result (fields currency, divisor,
hasRandomization, results) reached by a successful run, the content written
to the output file is exactly one summary line followed by each string of
`results` in order, joined by newlines, with a single terminating
newline. -/
theorem c1_output_file_content (env : Env) (args : Args) (r : ServerResult)
    (hfile : env.input_file_exists = true)
    (hhealth : env.health_status = some 200)
    (hresp : env.proc_response = { status := 200, body := .resultObj r }) :
    writesOf (main env args).trace =
      [(resolved_output_path env args,
        joinLines (summaryLineFile r :: r.results) ++ ("\n"))] := by
  rw [main_ok env args r hfile hhealth hresp]
  simp [writesOf, writesOf_append, writesOf_pathTrace, writesOf_map_printOut,
    outputContent]

theorem c1_witness :
    writesOf (main sampleEnv sampleArgs).trace =
      [(resolved_output_path sampleEnv sampleArgs,
        joinLines (summaryLineFile sampleResult :: sampleResult.results) ++ ("\n"))] :=
  c1_output_file_content sampleEnv sampleArgs sampleResult rfl rfl rfl

/-- C2: for every server result reached by a successful run, the summary
line of the written file is `* randomization used - divisible by` and the
divisor when `hasRandomization` is true, and `* no entries divisible by`
and the divisor otherwise; the rest of the file follows after a newline. -/
theorem c2_summary_line (env : Env) (args : Args) (r : ServerResult)
    (hfile : env.input_file_exists = true)
    (hhealth : env.health_status = some 200)
    (hresp : env.proc_response = { status := 200, body := .resultObj r }) :
    ∃ rest, writesOf (main env args).trace =
      [(resolved_output_path env args,
        (if r.hasRandomization then
           ("* randomization used - divisible by ") ++ toString r.divisor
         else
           ("* no entries divisible by ") ++ toString r.divisor) ++ ("\n") ++ rest)] := by
  rw [main_ok env args r hfile hhealth hresp]
  cases hres : r.results with
  | nil =>
      refine ⟨(""), ?_⟩
      simp [writesOf, writesOf_append, writesOf_pathTrace, writesOf_map_printOut,
        outputContent, hres, joinLines, summaryLineFile, String.append_empty,
        String.append_assoc]
  | cons b t =>
      refine ⟨joinLines (b :: t) ++ ("\n"), ?_⟩
      simp [writesOf, writesOf_append, writesOf_pathTrace, writesOf_map_printOut,
        outputContent, hres, joinLines, summaryLineFile, String.append_assoc]

theorem c2_witness :
    ∃ rest, writesOf (main randEnv sampleArgs).trace =
      [(resolved_output_path randEnv sampleArgs,
        (if randResult.hasRandomization then
           ("* randomization used - divisible by ") ++ toString randResult.divisor
         else
           ("* no entries divisible by ") ++ toString randResult.divisor) ++ ("\n") ++ rest)] :=
  c2_summary_line randEnv sampleArgs randResult rfl rfl rfl

/-- C3: for every invocation whose input file does not exist, the program
prints an error to stderr, exits with code 1, writes no file, creates no
directory, and issues no HTTP request (neither the health GET nor the
process POST). -/
theorem c3_missing_input (env : Env) (args : Args)
    (h : env.input_file_exists = false) :
    (main env args).exitCode = 1 ∧
    errsOf (main env args).trace =
      [("Error: Input file not found: ") ++ args.input_file] ∧
    writesOf (main env args).trace = [] ∧
    mkdirsOf (main env args).trace = [] ∧
    postsOf (main env args).trace = [] ∧
    getsOf (main env args).trace = [] := by
  simp [main, h, errsOf, writesOf, mkdirsOf, postsOf, getsOf]

theorem c3_witness :
    (main missingEnv sampleArgs).exitCode = 1 ∧
    errsOf (main missingEnv sampleArgs).trace =
      [("Error: Input file not found: ") ++ sampleArgs.input_file] ∧
    writesOf (main missingEnv sampleArgs).trace = [] ∧
    mkdirsOf (main missingEnv sampleArgs).trace = [] ∧
    postsOf (main missingEnv sampleArgs).trace = [] ∧
    getsOf (main missingEnv sampleArgs).trace = [] :=
  c3_missing_input missingEnv sampleArgs rfl

/-- C4: for every invocation whose input file exists but whose health check
fails (network failure, modelled by `none`, or any non-200 status), the
program exits with code 1 having issued no POST to /process; the only
stderr line is the server-unavailable message. -/
theorem c4_health_failure (env : Env) (args : Args)
    (hfile : env.input_file_exists = true)
    (hfail : env.health_status = none ∨ ∃ c, env.health_status = some c ∧ c ≠ 200) :
    (main env args).exitCode = 1 ∧
    postsOf (main env args).trace = [] ∧
    errsOf (main env args).trace =
      [("Error: API server not available at ") ++ args.api ++
        (". Start it with: cd api && npm start")] := by
  have hav : api_available env = false := by
    rcases hfail with h | ⟨c, hc, hne⟩
    · simp [api_available, h]
    · simp [api_available, hc, hne]
  simp [main, check_api, hfile, hav, postsOf, errsOf]

theorem c4_witness :
    (main downEnv sampleArgs).exitCode = 1 ∧
    postsOf (main downEnv sampleArgs).trace = [] ∧
    errsOf (main downEnv sampleArgs).trace =
      [("Error: API server not available at ") ++ sampleArgs.api ++
        (". Start it with: cd api && npm start")] :=
  c4_health_failure downEnv sampleArgs rfl (Or.inr ⟨500, rfl, by decide⟩)

/-- C5: for every invocation that reaches the POST and receives a non-200
response, the program exits with code 1 and the stderr message carries the
response body's `error` field, or the fallback `Unknown error` when that
field is absent. -/
theorem c5_api_error (env : Env) (args : Args)
    (hfile : env.input_file_exists = true)
    (hhealth : env.health_status = some 200)
    (hstatus : env.proc_response.status ≠ 200) :
    (main env args).exitCode = 1 ∧
    errsOf (main env args).trace =
      [("Error: ") ++ (("API error: ") ++
        (jsonGetError env.proc_response.body).getD ("Unknown error"))] := by
  simp [main, check_api, api_available, hhealth, hfile, process_file, hstatus,
    errsOf]

theorem c5_witness :
    (main apiErrEnv sampleArgs).exitCode = 1 ∧
    errsOf (main apiErrEnv sampleArgs).trace =
      [("Error: ") ++ (("API error: ") ++
        (jsonGetError apiErrEnv.proc_response.body).getD ("Unknown error"))] :=
  c5_api_error apiErrEnv sampleArgs rfl rfl (by decide)

/-- C6 counterexample: with `--output` given the empty string, the given
value is not used as the output path: the run writes to the derived default
path and performs the default-directory creation, because the script tests
the option with Python truthiness and the empty string is falsy. -/
theorem c6_counterexample :
    (writesOf (main sampleEnv emptyOutputArgs).trace).map Prod.fst ≠ [("")] ∧
    Effect.mkdirParents (defaultOutputDir sampleEnv) ∈
      (main sampleEnv emptyOutputArgs).trace := by
  exact ⟨by decide, by decide⟩

/-- C6 (amended): for every invocation where `--output` is given a
non-empty value and the run reaches the file write, that value is used
verbatim as the written path, and the only directory created is the parent
of that path: the derived default output directory is not created. -/
theorem c6_output_override (env : Env) (args : Args) (p : String) (r : ServerResult)
    (hout : args.output = some p) (hp : p ≠ (""))
    (hfile : env.input_file_exists = true)
    (hhealth : env.health_status = some 200)
    (hresp : env.proc_response = { status := 200, body := .resultObj r }) :
    (writesOf (main env args).trace).map Prod.fst = [p] ∧
    mkdirsOf (main env args).trace = [parentDir p] := by
  have hres : resolved_output_path env args = p := by
    simp [resolved_output_path, hout, hp]
  have htru : outputTruthy args.output = true := by
    simp [outputTruthy, hout, hp]
  rw [main_ok env args r hfile hhealth hresp]
  constructor
  · simp [writesOf, writesOf_append, writesOf_pathTrace, writesOf_map_printOut, hres]
  · simp [mkdirsOf, mkdirsOf_append, mkdirsOf_pathTrace, mkdirsOf_map_printOut,
      hres, htru]

theorem c6_witness :
    (writesOf (main sampleEnv overrideArgs).trace).map Prod.fst = [("custom/out.txt")] ∧
    mkdirsOf (main sampleEnv overrideArgs).trace = [parentDir ("custom/out.txt")] :=
  c6_output_override sampleEnv overrideArgs ("custom/out.txt") sampleResult rfl
    (by decide) rfl rfl rfl

/-- The `divisor` query parameter appears in the built parameters exactly
when a divisor override was given, with its decimal string as value. -/
theorem build_params_divisor (dv : Option Int) (np hd : Bool) (v : String) :
    (("divisor"), v) ∈ build_params dv np hd ↔ ∃ d, dv = some d ∧ v = toString d := by
  cases dv <;> cases np <;> cases hd <;> simp [build_params]

/-- The `noPennies` query parameter appears exactly when the flag is set,
with value `true`. -/
theorem build_params_noPennies (dv : Option Int) (np hd : Bool) (v : String) :
    (("noPennies"), v) ∈ build_params dv np hd ↔ np = true ∧ v = ("true") := by
  cases dv <;> cases np <;> cases hd <;> simp [build_params]

/-- The `halfDollars` query parameter appears exactly when the flag is set,
with value `true`. -/
theorem build_params_halfDollars (dv : Option Int) (np hd : Bool) (v : String) :
    (("halfDollars"), v) ∈ build_params dv np hd ↔ hd = true ∧ v = ("true") := by
  cases dv <;> cases np <;> cases hd <;> simp [build_params]

/-- Every run that passes the input-file check and the health check issues
exactly one POST, to /process, with the built query parameters and the raw
input text as body, whatever the response turns out to be. -/
theorem postsOf_main (env : Env) (args : Args)
    (hfile : env.input_file_exists = true)
    (hhealth : env.health_status = some 200) :
    postsOf (main env args).trace =
      [(args.api ++ ("/process"),
        build_params args.divisor args.no_pennies args.half_dollars,
        env.file_content)] := by
  by_cases hs : env.proc_response.status = 200
  · rcases hb : env.proc_response.body with r | e
    · have hresp : env.proc_response = { status := 200, body := .resultObj r } := by
        cases henv : env.proc_response
        simp_all
      rw [main_ok env args r hfile hhealth hresp]
      simp [postsOf, postsOf_append, postsOf_pathTrace, postsOf_map_printOut]
    · simp [main, check_api, api_available, hhealth, hfile, process_file, hs, hb,
        postsOf, postsOf_append, postsOf_pathTrace]
  · simp [main, check_api, api_available, hhealth, hfile, process_file, hs,
      postsOf]

/-- C7: every run that reaches the submission issues the POST to /process
with the raw input text as body, and each query parameter is present
exactly under its condition: `divisor` iff an override was given (decimal
string value), `noPennies` iff the no-pennies flag is set (value `true`),
and `halfDollars` iff the half-dollars flag is set (value `true`). -/
theorem c7_post_request (env : Env) (args : Args)
    (hfile : env.input_file_exists = true)
    (hhealth : env.health_status = some 200) :
    ∃ ps, postsOf (main env args).trace =
        [(args.api ++ ("/process"), ps, env.file_content)] ∧
      (∀ v, (("divisor"), v) ∈ ps ↔ ∃ d, args.divisor = some d ∧ v = toString d) ∧
      (∀ v, (("noPennies"), v) ∈ ps ↔ args.no_pennies = true ∧ v = ("true")) ∧
      (∀ v, (("halfDollars"), v) ∈ ps ↔ args.half_dollars = true ∧ v = ("true")) :=
  ⟨build_params args.divisor args.no_pennies args.half_dollars,
   postsOf_main env args hfile hhealth,
   fun v => build_params_divisor args.divisor args.no_pennies args.half_dollars v,
   fun v => build_params_noPennies args.divisor args.no_pennies args.half_dollars v,
   fun v => build_params_halfDollars args.divisor args.no_pennies args.half_dollars v⟩

theorem c7_witness :
    ∃ ps, postsOf (main sampleEnv flagArgs).trace =
        [(flagArgs.api ++ ("/process"), ps, sampleEnv.file_content)] ∧
      (∀ v, (("divisor"), v) ∈ ps ↔ ∃ d, flagArgs.divisor = some d ∧ v = toString d) ∧
      (∀ v, (("noPennies"), v) ∈ ps ↔ flagArgs.no_pennies = true ∧ v = ("true")) ∧
      (∀ v, (("halfDollars"), v) ∈ ps ↔ flagArgs.half_dollars = true ∧ v = ("true")) :=
  c7_post_request sampleEnv flagArgs rfl rfl

/-- C8 counterexample: at a concrete successful run, the console output is
not the claimed sequence of count line, path line, blank line, then
immediately the summary and result lines: the code prints an extra
`--- Results ---` header between the blank line and the summary block. -/
theorem c8_counterexample :
    printsOf (main sampleEnv sampleArgs).trace ≠
      (("Processed ") ++ toString sampleResult.results.length ++
        (" transactions (") ++ sampleResult.currency ++ (")")) ::
      (("Output: ") ++ resolved_output_path sampleEnv sampleArgs) ::
      ("") ::
      summaryLineFile sampleResult :: sampleResult.results := by
  have hmain := main_ok sampleEnv sampleArgs sampleResult rfl rfl rfl
  intro h
  rw [hmain] at h
  simp only [printsOf, printsOf_append, printsOf_pathTrace, printsOf_map_printOut,
    List.nil_append] at h
  have hlen := congrArg List.length h
  simp [sampleResult] at hlen

/-- C8 (amended): for every successful run, the console output is the
transaction-count line, the output-path line, a blank line, the header
`--- Results ---`, and then exactly the summary line and result lines that
were written to the output file. -/
theorem c8_console_output (env : Env) (args : Args) (r : ServerResult)
    (hfile : env.input_file_exists = true)
    (hhealth : env.health_status = some 200)
    (hresp : env.proc_response = { status := 200, body := .resultObj r }) :
    printsOf (main env args).trace =
      (("Processed ") ++ toString r.results.length ++
        (" transactions (") ++ r.currency ++ (")")) ::
      (("Output: ") ++ resolved_output_path env args) ::
      ("") ::
      ("--- Results ---") ::
      summaryLineFile r :: r.results ∧
    writesOf (main env args).trace =
      [(resolved_output_path env args,
        joinLines (summaryLineFile r :: r.results) ++ ("\n"))] := by
  rw [main_ok env args r hfile hhealth hresp]
  constructor
  · simp [printsOf, printsOf_append, printsOf_pathTrace, printsOf_map_printOut,
      summaryLineConsole, summaryLineFile]
  · simp [writesOf, writesOf_append, writesOf_pathTrace, writesOf_map_printOut,
      outputContent]

theorem c8_witness :
    printsOf (main randEnv sampleArgs).trace =
      (("Processed ") ++ toString randResult.results.length ++
        (" transactions (") ++ randResult.currency ++ (")")) ::
      (("Output: ") ++ resolved_output_path randEnv sampleArgs) ::
      ("") ::
      ("--- Results ---") ::
      summaryLineFile randResult :: randResult.results ∧
    writesOf (main randEnv sampleArgs).trace =
      [(resolved_output_path randEnv sampleArgs,
        joinLines (summaryLineFile randResult :: randResult.results) ++ ("\n"))] :=
  c8_console_output randEnv sampleArgs randResult rfl rfl rfl

/-- C9: the stdout summary line (lines 156-160) and the file summary line
(lines 137-141) are computed by the same case split on `hasRandomization`
and the divisor, so the two are equal strings for every server result. -/
theorem c9_summary_consistency (r : ServerResult) :
    summaryLineConsole r = summaryLineFile r := rfl

/-- C10: for every invocation without `--output` that reaches the file
write, the written path is the fixed directory `output/clients/python`
located two levels above the script directory, joined with the input
file's base name stripped of its extension plus `-output.txt`; and that
directory is created (with parents) during the run. -/
theorem c10_default_path (env : Env) (args : Args) (r : ServerResult)
    (hout : args.output = none)
    (hfile : env.input_file_exists = true)
    (hhealth : env.health_status = some 200)
    (hresp : env.proc_response = { status := 200, body := .resultObj r }) :
    (writesOf (main env args).trace).map Prod.fst =
      [pathJoin (env.script_dir ++ ("/../../output/clients/python"))
        (stem args.input_file ++ ("-output.txt"))] ∧
    Effect.mkdirParents (env.script_dir ++ ("/../../output/clients/python")) ∈
      (main env args).trace := by
  have hdir : defaultOutputDir env = env.script_dir ++ ("/../../output/clients/python") := by
    simp [defaultOutputDir, pathJoin, String.append_assoc]
  have hres : resolved_output_path env args =
      pathJoin (env.script_dir ++ ("/../../output/clients/python"))
        (stem args.input_file ++ ("-output.txt")) := by
    simp [resolved_output_path, hout, default_output_path, hdir]
  have htru : outputTruthy args.output = false := by
    simp [outputTruthy, hout]
  rw [main_ok env args r hfile hhealth hresp]
  constructor
  · simp [writesOf, writesOf_append, writesOf_pathTrace, writesOf_map_printOut, hres]
  · rw [← hdir]
    simp [pathTrace, htru]

theorem c10_witness :
    (writesOf (main sampleEnv sampleArgs).trace).map Prod.fst =
      [pathJoin (sampleEnv.script_dir ++ ("/../../output/clients/python"))
        (stem sampleArgs.input_file ++ ("-output.txt"))] ∧
    Effect.mkdirParents (sampleEnv.script_dir ++ ("/../../output/clients/python")) ∈
      (main sampleEnv sampleArgs).trace :=
  c10_default_path sampleEnv sampleArgs sampleResult rfl rfl rfl rfl

end CashRegister
